import Mathlib

/-!
# Shallow embedding of `bench.js` (SupabaseBench)

This file embeds the latency-benchmark harness `src/supabase-bench/bench.js`
into Lean and proves properties of it.

Modelling conventions:
* JavaScript numbers that can be `NaN` are modelled as `Option Int`
  (`none` = `NaN`, `some v` = the finite number `v`).  All numbers that
  actually occur in the harness are integers (timestamps in milliseconds and
  differences of such), so `Int` suffices for the finite case.
* Mutable state (`stats` object, bench.js lines 14-19) is threaded
  explicitly as a `Stats` value.
* Timer callbacks (`setInterval`) and realtime deliveries are modelled as
  explicit operations applied to the state; `Date.now()` is an `Int`
  parameter of each operation.
* `try`/`catch` around pure field accesses cannot fire in the model (field
  access on a structure is total), so the `catch` branch of the
  `postgres_changes` handler (lines 48-50) never executes here.
-/

/-- A JavaScript number that may be `NaN`: `none` models `NaN`. -/
abbrev JsNum := Option Int

/-- `Date.now() - ts` (bench.js line 44): subtracting `NaN` yields `NaN`. -/
def jsSub (now : Int) (ts : JsNum) : JsNum := ts.map (fun t => now - t)

/-- Leading decimal-digit run of a character list. -/
def leadingDigits (cs : List Char) : List Char := cs.takeWhile (fun c => c.isDigit)

/-- Value of a list of decimal digits, most significant first. -/
def digitsVal (cs : List Char) : Nat := cs.foldl (fun n c => n * 10 + (c.toNat - 48)) 0

/-- JavaScript `parseInt(s, 10)`: skip leading whitespace, read an optional
sign and then the longest run of decimal digits; `NaN` (`none`) when no digit
is found.  Used at bench.js lines 12 and 43. -/
def parseIntJS (s : String) : JsNum :=
  let cs := s.data.dropWhile (fun c => c == ' ' || c == '\t' || c == '\n' || c == '\r')
  match cs with
  | '-' :: rest =>
    let ds := leadingDigits rest
    if ds.isEmpty then none else some (-(digitsVal ds : Int))
  | '+' :: rest =>
    let ds := leadingDigits rest
    if ds.isEmpty then none else some (digitsVal ds : Int)
  | _ =>
    let ds := leadingDigits cs
    if ds.isEmpty then none else some (digitsVal ds : Int)

/-- JavaScript `a || d` for an optional string `a` (bench.js line 12):
`undefined` (`none`) and the empty string are falsy and select the default. -/
def jsOrDefault (arg : Option String) (d : String) : String :=
  match arg with
  | none => d
  | some s => if s.isEmpty then d else s

/-- `CLIENT_COUNT = parseInt(CLIENT_COUNT_ARG || '1000', 10)` (bench.js
line 12).  `arg` is `process.argv[4]`, absent when the invocation omits the
client-count argument.  The result is `NaN` (`none`) when the non-empty
argument has no parseable integer prefix. -/
def CLIENT_COUNT (arg : Option String) : JsNum := parseIntJS (jsOrDefault arg "1000")

/-- The shared mutable `stats` object (bench.js lines 14-19).  Latencies may
be `NaN` (see `jsSub`), hence `List JsNum`. -/
structure Stats where
  sent : Nat
  received : Nat
  latencies : List JsNum
  errors : Nat
deriving Repr, DecidableEq

/-- Initial value of `stats` (bench.js lines 14-19). -/
def initStats : Stats := { sent := 0, received := 0, latencies := [], errors := 0 }

/-- The row carried in `payload.new`.  The handler (bench.js lines 41-47)
reads only `id` and `_bench_sent_ts`; other columns never influence it and
are omitted except `value`, kept to mirror the upserted shape.
`benchSentTs` is `none` when the `_bench_sent_ts` field is absent. -/
structure BenchRecord where
  id : String
  value : String
  benchSentTs : Option String
deriving Repr, DecidableEq

/-- Truthiness of `rec._bench_sent_ts` (bench.js line 42): an absent field
(`undefined`) and the empty string are falsy; any non-empty string is truthy. -/
def tsTruthy (o : Option String) : Bool :=
  match o with
  | none => false
  | some s => !s.isEmpty

/-- The `postgres_changes` handler body (bench.js lines 40-51) for one
client of identity `myId`, at current time `now`.  `newRec` is
`payload?.new`, `none` when the payload carries no `new` row.  The guard is
`rec && rec.id === myId && rec._bench_sent_ts`; when it holds the handler
parses the timestamp, computes `rtt = Date.now() - sendTs`, increments
`received` and appends `rtt`.  The `catch` branch cannot fire in the pure
model, so `errors` is never touched here. -/
def handleEvent (myId : String) (now : Int) (newRec : Option BenchRecord)
    (st : Stats) : Stats :=
  match newRec with
  | none => st
  | some r =>
    if r.id == myId && tsTruthy r.benchSentTs then
      let sendTs := parseIntJS ((r.benchSentTs).getD "")
      let rtt := jsSub now sendTs
      { st with received := st.received + 1, latencies := st.latencies ++ [rtt] }
    else st

/-- One tick of the periodic write loop (bench.js lines 70-89), abstracting
each session's upsert outcome as a `Bool` (`true` = resolved, `false` =
threw).  A successful upsert increments `sent`; a failed one is caught and
increments `errors`, and the `for` loop continues with the next session. -/
def writeTick (outcomes : List Bool) (st : Stats) : Stats :=
  outcomes.foldl
    (fun s ok =>
      if ok then { s with sent := s.sent + 1 } else { s with errors := s.errors + 1 })
    st

/-- The volume-based reporting condition checked after each batch
(bench.js line 86): `stats.sent % (CLIENT_COUNT * 5) === 0`.  In JavaScript
`x % 0` is `NaN` and `NaN === 0` is false, hence the guard on
`clientCount * 5`. -/
def tickTriggersSummary (clientCount : Nat) (st : Stats) : Bool :=
  clientCount * 5 != 0 && st.sent % (clientCount * 5) == 0

/-- One initial upsert of the startup loop (bench.js lines 59-64): the
`catch` increments `errors`; a success touches no counter (`sent` is not
incremented there). -/
def startupWrite (ok : Bool) (st : Stats) : Stats :=
  if ok then st else { st with errors := st.errors + 1 }

/-- The events that mutate (or read) the shared `stats` over a run. -/
inductive Op where
  /-- A realtime delivery to the client owning `myId` (bench.js lines 40-51). -/
  | deliver (myId : String) (now : Int) (newRec : Option BenchRecord)
  /-- One periodic write batch (bench.js lines 70-89). -/
  | tick (outcomes : List Bool)
  /-- One initial upsert of the startup loop (bench.js lines 59-64). -/
  | startWrite (ok : Bool)
  /-- A `printSummary` firing (bench.js line 92): reads, never writes. -/
  | report
deriving Repr

/-- Apply one operation to the shared state. -/
def applyOp (st : Stats) : Op → Stats
  | .deliver myId now newRec => handleEvent myId now newRec st
  | .tick outcomes => writeTick outcomes st
  | .startWrite ok => startupWrite ok st
  | .report => st

/-- Run a sequence of operations from the initial state. -/
def runOps (ops : List Op) : Stats := ops.foldl applyOp initStats

/-- Ascending order used by `sort((a,b)=>a-b)` (bench.js line 97).  On finite
numbers the comparator orders ascending; when either side is `NaN` the
comparator returns `NaN`, which ECMAScript's `SortCompare` coerces to `+0`
(a tie), modelled by treating the pair as already in order. -/
def jsLe (a b : JsNum) : Bool :=
  match a, b with
  | some x, some y => decide (x ≤ y)
  | _, _ => true

/-- Insertion into a list sorted by `jsLe`. -/
def jsInsert (a : JsNum) : List JsNum → List JsNum
  | [] => [a]
  | b :: l => if jsLe a b then a :: b :: l else b :: jsInsert a l

/-- `Array.prototype.sort((a,b)=>a-b)` (bench.js line 97) as insertion sort:
on numeric elements it produces the list sorted ascending. -/
def jsSortAsc : List JsNum → List JsNum
  | [] => []
  | a :: l => jsInsert a (jsSortAsc l)

/-- `Array.from(arr)`: a shallow copy.  In the value model the copy holds the
same elements, so it is the list itself; the point is that `.sort` then
mutates the copy, not the caller's array. -/
def jsArrayFrom (arr : List JsNum) : List JsNum := arr

/-- Embedding of `pct(arr, p)` (bench.js lines 95-100) together with its
effect on the caller's array: the first component is the returned value, the
second is the caller's array as the call leaves it.  `sort` mutates only the
fresh copy made by `Array.from(arr)`, so the second component is `arr` as
received.  `!arr.length` returns the number `0`.  Otherwise
`idx = Math.floor((p/100) * sorted.length)` — exact here as `p * n / 100`
(for `p = 95` the double-precision product `0.95 * n` rounds to a value with
the same floor for every JavaScript array length `n < 2^32`) — and the
result is `sorted[Math.min(idx, sorted.length - 1)]`; that index is in
range, so `getD`'s default is never selected. -/
def pctCall (arr : List JsNum) (p : Nat) : JsNum × List JsNum :=
  if arr.length = 0 then (some 0, arr)
  else
    let sorted := jsSortAsc (jsArrayFrom arr)
    let idx := p * arr.length / 100
    ((sorted.getD (min idx (arr.length - 1)) (some 0)), arr)

/-- The value returned by `pct(arr, p)` (bench.js lines 95-100). -/
def pct (arr : List JsNum) (p : Nat) : JsNum := (pctCall arr p).1

/-- One field of the printed summary line: `dash` is the `'-'` placeholder,
`nan` the printed `NaN`, `num v` a finite printed number.  (`toFixed(1)`
display rounding of `avg` is formatting only and is not modelled; the value
is kept exact as a rational.) -/
inductive DispVal where
  | dash
  | nan
  | num (v : ℚ)
deriving DecidableEq, Repr

/-- NaN-propagating sum: `lat.reduce((a,b)=>a+b, 0)` (bench.js line 104). -/
def jsSum (lat : List JsNum) : JsNum :=
  lat.foldl
    (fun acc x =>
      match acc, x with
      | some a, some b => some (a + b)
      | _, _ => none)
    (some 0)

/-- `Math.min(...lat)` for non-empty `lat` (bench.js line 105): `NaN` if any
element is `NaN`, otherwise the minimum.  The empty case (where JavaScript
would give `Infinity`) is unreachable behind the `lat.length` guard and is
mapped to `none`. -/
def jsMinAll (lat : List JsNum) : JsNum :=
  match lat with
  | [] => none
  | x :: xs =>
    xs.foldl
      (fun acc y =>
        match acc, y with
        | some a, some b => some (min a b)
        | _, _ => none)
      x

/-- `Math.max(...lat)` for non-empty `lat` (bench.js line 106); see
`jsMinAll`. -/
def jsMaxAll (lat : List JsNum) : JsNum :=
  match lat with
  | [] => none
  | x :: xs =>
    xs.foldl
      (fun acc y =>
        match acc, y with
        | some a, some b => some (max a b)
        | _, _ => none)
      x

/-- The summary line printed by `printSummary` (bench.js lines 102-109). -/
structure SummaryLine where
  sent : Nat
  received : Nat
  errors : Nat
  avg : DispVal
  minv : DispVal
  maxv : DispVal
  p95 : DispVal
  samples : Nat
deriving DecidableEq, Repr

/-- Lift a possibly-`NaN` value into a printed field. -/
def dispOfJsNum (x : JsNum) : DispVal :=
  match x with
  | none => .nan
  | some v => .num (v : ℚ)

/-- `printSummary()` (bench.js lines 102-109) as a pure snapshot of the line
it prints.  `lat.length ? … : '-'` guards `avg`, `min` and `max` (`0` is
falsy), but `p95` is `pct(lat, 95)` unconditionally. -/
def printSummary (st : Stats) : SummaryLine :=
  let lat := st.latencies
  { sent := st.sent
    received := st.received
    errors := st.errors
    avg :=
      if lat.length = 0 then .dash
      else
        match jsSum lat with
        | none => .nan
        | some s => .num ((s : ℚ) / (lat.length : ℚ))
    minv := if lat.length = 0 then .dash else dispOfJsNum (jsMinAll lat)
    maxv := if lat.length = 0 then .dash else dispOfJsNum (jsMaxAll lat)
    p95 := dispOfJsNum (pct lat 95)
    samples := lat.length }

/-! ## Helper lemmas -/

/-- Unfolding one step of the write loop. -/
theorem writeTick_cons (b : Bool) (l : List Bool) (st : Stats) :
    writeTick (b :: l) st =
      writeTick l
        (if b then { st with sent := st.sent + 1 } else { st with errors := st.errors + 1 }) :=
  rfl

theorem writeTick_sent (o : List Bool) :
    ∀ st : Stats, (writeTick o st).sent = st.sent + o.count true := by
  induction o with
  | nil => intro st; simp [writeTick]
  | cons b l ih =>
    intro st
    rw [writeTick_cons]
    cases b <;> simp [ih, List.count_cons] <;> omega

theorem writeTick_errors (o : List Bool) :
    ∀ st : Stats, (writeTick o st).errors = st.errors + o.count false := by
  induction o with
  | nil => intro st; simp [writeTick]
  | cons b l ih =>
    intro st
    rw [writeTick_cons]
    cases b <;> simp [ih, List.count_cons] <;> omega

theorem writeTick_received (o : List Bool) :
    ∀ st : Stats, (writeTick o st).received = st.received := by
  induction o with
  | nil => intro st; rfl
  | cons b l ih =>
    intro st
    rw [writeTick_cons]
    cases b
    · simp [ih]
    · simp [ih]

theorem writeTick_latencies (o : List Bool) :
    ∀ st : Stats, (writeTick o st).latencies = st.latencies := by
  induction o with
  | nil => intro st; rfl
  | cons b l ih =>
    intro st
    rw [writeTick_cons]
    cases b
    · simp [ih]
    · simp [ih]

/-- The handler preserves `received = latencies.length`. -/
theorem handleEvent_inv (myId : String) (now : Int) (newRec : Option BenchRecord)
    (st : Stats) (h : st.received = st.latencies.length) :
    (handleEvent myId now newRec st).received =
      (handleEvent myId now newRec st).latencies.length := by
  cases newRec with
  | none => exact h
  | some r =>
    dsimp [handleEvent]
    split
    · simp [h]
    · exact h

/-- Every operation preserves `received = latencies.length`. -/
theorem applyOp_inv (st : Stats) (op : Op) (h : st.received = st.latencies.length) :
    (applyOp st op).received = (applyOp st op).latencies.length := by
  cases op with
  | deliver myId now newRec => exact handleEvent_inv myId now newRec st h
  | tick outcomes =>
    dsimp [applyOp]
    rw [writeTick_received, writeTick_latencies]
    exact h
  | startWrite ok => cases ok <;> simpa [applyOp, startupWrite] using h
  | report => exact h

theorem foldl_applyOp_inv (ops : List Op) :
    ∀ st : Stats, st.received = st.latencies.length →
      (ops.foldl applyOp st).received = (ops.foldl applyOp st).latencies.length := by
  induction ops with
  | nil => intro st h; exact h
  | cons op ops ih => intro st h; exact ih (applyOp st op) (applyOp_inv st op h)



/-! ## Claims -/

/-- C1 counterexample: an event matched to `client-0` whose `_bench_sent_ts`
is the non-numeric string "abc" (`parseInt` gives `NaN`) is NOT dropped: the
handler increments `received` and appends a `NaN` latency sample, refuting
the claim that such an event leaves the state unchanged. -/
theorem c1_counterexample :
    parseIntJS "abc" = none ∧
    (handleEvent "client-0" 100 (some ⟨"client-0", "v", some "abc"⟩) initStats).received
      = 1 ∧
    (handleEvent "client-0" 100 (some ⟨"client-0", "v", some "abc"⟩) initStats).latencies
      = [none] := by
  refine ⟨rfl, rfl, rfl⟩

/-- C1 (amended): for an event whose record identity matches the session, a
missing or empty `_bench_sent_ts` field drops the event silently (state
unchanged); a non-empty but unparseable timestamp does NOT drop it — the
handler increments `received` and appends a `NaN` sample — and `errors` and
`sent` are unchanged in every case. -/
theorem c1_missing_ts_dropped (myId : String) (now : Int) (st : Stats)
    (r : BenchRecord) (hid : r.id = myId) :
    (r.benchSentTs = none → handleEvent myId now (some r) st = st) ∧
    (r.benchSentTs = some "" → handleEvent myId now (some r) st = st) ∧
    (∀ ts : String, r.benchSentTs = some ts → ts.isEmpty = false →
      parseIntJS ts = none →
      handleEvent myId now (some r) st =
        { st with received := st.received + 1, latencies := st.latencies ++ [none] }) := by
  refine ⟨?_, ?_, ?_⟩
  · intro h
    simp [handleEvent, hid, h, tsTruthy]
  · intro h
    have ht : tsTruthy (some "") = false := by decide
    simp [handleEvent, hid, h, ht]
  · intro ts hts hne hbad
    simp [handleEvent, hid, hts, tsTruthy, hne, hbad, jsSub]

/-- Witness for C1 (amended) at concrete inputs: a missing timestamp drops
the event; the unparseable timestamp "abc" yields a `NaN` sample. -/
theorem c1_witness :
    handleEvent "client-0" 5 (some ⟨"client-0", "v", none⟩) initStats = initStats ∧
    handleEvent "client-0" 5 (some ⟨"client-0", "v", some "abc"⟩) initStats =
      { initStats with received := 1, latencies := [none] } :=
  ⟨(c1_missing_ts_dropped "client-0" 5 initStats ⟨"client-0", "v", none⟩ rfl).1 rfl,
   (c1_missing_ts_dropped "client-0" 5 initStats ⟨"client-0", "v", some "abc"⟩ rfl).2.2
     "abc" rfl rfl rfl⟩

/-- C2 counterexample: on the empty sample set the printed summary reports
`p95` as the number `0` (via `pct`'s `return 0`), not as the unavailable
marker `'-'`, refuting the claim that every derived field reports
unavailable. -/
theorem c2_counterexample :
    initStats.latencies = [] ∧
    (printSummary initStats).p95 = DispVal.num 0 ∧
    (printSummary initStats).p95 ≠ DispVal.dash := by
  refine ⟨rfl, rfl, ?_⟩
  have h2 : (printSummary initStats).p95 = DispVal.num 0 := rfl
  rw [h2]
  intro h
  exact DispVal.noConfusion h

/-- C2 (amended): on an empty sample set the summary reports avg, min and
max as the unavailable marker `'-'`, but p95 as the number `0`. -/
theorem c2_empty_summary (st : Stats) (h : st.latencies = []) :
    (printSummary st).avg = DispVal.dash ∧
    (printSummary st).minv = DispVal.dash ∧
    (printSummary st).maxv = DispVal.dash ∧
    (printSummary st).p95 = DispVal.num 0 := by
  simp [printSummary, h, pct, pctCall, dispOfJsNum]

/-- Witness for C2 (amended) at the initial (empty) state. -/
theorem c2_witness :
    (printSummary initStats).avg = DispVal.dash ∧
    (printSummary initStats).minv = DispVal.dash ∧
    (printSummary initStats).maxv = DispVal.dash ∧
    (printSummary initStats).p95 = DispVal.num 0 :=
  c2_empty_summary initStats rfl

/-- C3 counterexample: for the non-numeric argument "abc" the computed
client count is `NaN` (`none`), not `1000`, refuting the claim. -/
theorem c3_counterexample :
    CLIENT_COUNT (some "abc") = none ∧ CLIENT_COUNT (some "abc") ≠ some 1000 := by
  refine ⟨rfl, ?_⟩
  intro h
  have h0 : CLIENT_COUNT (some "abc") = none := rfl
  rw [h0] at h
  exact Option.noConfusion h

/-- C3 (amended): an omitted or empty client-count argument yields the
default `1000`; a non-empty argument with no parseable integer prefix yields
`NaN` (`none`), not `1000`. -/
theorem c3_default_count (s : String) (hne : s.isEmpty = false)
    (hbad : parseIntJS s = none) :
    CLIENT_COUNT none = some 1000 ∧
    CLIENT_COUNT (some "") = some 1000 ∧
    CLIENT_COUNT (some s) = none := by
  refine ⟨rfl, rfl, ?_⟩
  simp [CLIENT_COUNT, jsOrDefault, hne, hbad]

/-- Witness for C3 (amended) at the concrete argument "xyz". -/
theorem c3_witness :
    CLIENT_COUNT none = some 1000 ∧ CLIENT_COUNT (some "xyz") = none :=
  ⟨(c3_default_count "xyz" rfl rfl).1, (c3_default_count "xyz" rfl rfl).2.2⟩

/-- C4: for every non-empty sample list, `pct(arr, 95)` is the element at
index `min(floor(95 * n / 100), n - 1)` of the list sorted ascending
(nearest rank, no interpolation); over `[10, 20, ..., 100]` it is `100`. -/
theorem c4_p95_nearest_rank :
    (∀ arr : List JsNum, arr ≠ [] →
      pct arr 95 =
        (jsSortAsc arr).getD (min (95 * arr.length / 100) (arr.length - 1)) (some 0)) ∧
    pct (List.map (fun n => some n) [(10 : Int), 20, 30, 40, 50, 60, 70, 80, 90, 100]) 95
      = some 100 := by
  constructor
  · intro arr h
    have hlen : ¬ arr.length = 0 := by
      simpa [List.length_eq_zero] using h
    simp [pct, pctCall, jsArrayFrom, hlen]
  · rfl

/-- Witness for C4 on the one-element list `[7]`. -/
theorem c4_witness :
    pct [some (7 : Int)] 95 =
      (jsSortAsc [some (7 : Int)]).getD (min (95 * 1 / 100) (1 - 1)) (some 0) :=
  c4_p95_nearest_rank.1 [some (7 : Int)] (by simp)

/-- C5: an event whose record identity differs from the session's own
identity leaves the state (samples and all counters) unchanged — silently
ignored, never counted as an error. -/
theorem c5_foreign_event_ignored (myId : String) (now : Int) (st : Stats)
    (r : BenchRecord) (h : r.id ≠ myId) :
    handleEvent myId now (some r) st = st := by
  have hb : (r.id == myId) = false := beq_eq_false_iff_ne.mpr h
  simp [handleEvent, hb]

/-- Witness for C5: an event for `client-1` delivered to `client-0`'s
handler changes nothing. -/
theorem c5_witness :
    handleEvent "client-0" 100 (some ⟨"client-1", "v", some "40"⟩) initStats
      = initStats :=
  c5_foreign_event_ignored "client-0" 100 initStats ⟨"client-1", "v", some "40"⟩
    (by simp)

/-- C6: within a tick's batch, every successful write increments `sent` and
every failed write increments `errors` (and not `sent`); no failure aborts
the loop — the whole batch is processed and `received`/`latencies` are
untouched.  The final conjunct shows a failing session: the loop charges one
error and continues with the remaining sessions. -/
theorem c6_write_failure_counted (outcomes : List Bool) (st : Stats) :
    (writeTick outcomes st).sent = st.sent + outcomes.count true ∧
    (writeTick outcomes st).errors = st.errors + outcomes.count false ∧
    (writeTick outcomes st).received = st.received ∧
    (writeTick outcomes st).latencies = st.latencies ∧
    ∀ rest : List Bool,
      writeTick (false :: rest) st = writeTick rest { st with errors := st.errors + 1 } :=
  ⟨writeTick_sent outcomes st, writeTick_errors outcomes st,
   writeTick_received outcomes st, writeTick_latencies outcomes st, fun _ => rfl⟩

/-- Reachable state with `sent = 9`, `errors = 1` (five batches of two
clients, the last with one failed write); used to refute C7. -/
def c7PreState : Stats :=
  runOps [Op.tick [true, true], Op.tick [true, true], Op.tick [true, true],
          Op.tick [true, true], Op.tick [true, false]]

/-- C7 counterexample: with 2 clients and `sent = 9` before the batch, a
fully successful batch moves `sent` to 11, crossing the multiple
`10 = 5 × 2` of `5 × clientCount`, yet no summary is triggered because
`11 % 10 ≠ 0` — the check only fires when `sent` lands exactly on a
multiple. -/
theorem c7_counterexample :
    c7PreState.sent = 9 ∧
    (∃ m : Nat, c7PreState.sent < 5 * 2 * m ∧
      5 * 2 * m ≤ (writeTick [true, true] c7PreState).sent) ∧
    tickTriggersSummary 2 (writeTick [true, true] c7PreState) = false := by
  refine ⟨by decide, ⟨1, by decide, by decide⟩, by decide⟩

/-- C7 (amended): after completing a batch, the immediate summary emission
is triggered exactly when the cumulative `sent` counter is then divisible by
`5 × clientCount`; a batch that passes a multiple without landing on it
triggers nothing. -/
theorem c7_volume_trigger (clientCount : Nat) (st : Stats) (outcomes : List Bool)
    (hpos : 0 < clientCount) :
    tickTriggersSummary clientCount (writeTick outcomes st) = true ↔
      5 * clientCount ∣ (writeTick outcomes st).sent := by
  have h5 : clientCount * 5 ≠ 0 := by omega
  rw [tickTriggersSummary, Nat.dvd_iff_mod_eq_zero, mul_comm 5 clientCount]
  simp [h5]

/-- Witness for C7 (amended): one client, one batch of five successful
writes lands `sent` on `5 = 5 × 1` and triggers the summary. -/
theorem c7_witness :
    tickTriggersSummary 1 (writeTick [true, true, true, true, true] initStats) = true :=
  (c7_volume_trigger 1 initStats [true, true, true, true, true] (by decide)).mpr
    (by decide)

/-- C8 counterexample: an event matched to `client-0` whose timestamp field
is present but the empty string is dropped (the state is unchanged, so
`received` is not incremented and no sample is appended), refuting the claim
that presence of the field suffices for the event to be handled. -/
theorem c8_counterexample :
    (BenchRecord.mk "client-0" "v" (some "")).benchSentTs.isSome = true ∧
    handleEvent "client-0" 100 (some ⟨"client-0", "v", some ""⟩) initStats
      = initStats := by
  refine ⟨rfl, rfl⟩

/-- C8 (amended): for an event whose identity matches the session and whose
timestamp field is present AND non-empty, the handler appends exactly the
sample `now - parseInt(ts, 10)` (NaN-valued when the parse fails),
increments `received` by one, and leaves `sent` and `errors` unchanged. -/
theorem c8_matched_event_sample (myId : String) (now : Int) (st : Stats)
    (r : BenchRecord) (ts : String) (hid : r.id = myId)
    (hts : r.benchSentTs = some ts) (hne : ts.isEmpty = false) :
    handleEvent myId now (some r) st =
      { st with received := st.received + 1,
                latencies := st.latencies ++ [jsSub now (parseIntJS ts)] } := by
  simp [handleEvent, hid, hts, tsTruthy, hne]

/-- Witness for C8 (amended): timestamp "40" at `now = 100` records the
sample `60` for the matching client. -/
theorem c8_witness :
    handleEvent "client-0" 100 (some ⟨"client-0", "v", some "40"⟩) initStats =
      { initStats with received := 1, latencies := [some 60] } := by
  rw [c8_matched_event_sample "client-0" 100 initStats ⟨"client-0", "v", some "40"⟩
    "40" rfl rfl rfl]
  rfl

/-- C9: over every sequence of operations from the initial state, the
`received` counter equals the number of recorded latency samples: the only
code path that increments `received` (the matched-event branch of the
handler) appends exactly one sample, and no operation removes samples or
decrements the counter. -/
theorem c9_received_matches_samples (ops : List Op) :
    (runOps ops).received = (runOps ops).latencies.length :=
  foldl_applyOp_inv ops initStats rfl

/-- C10: `pct` never mutates the stored sample array: it sorts the fresh
copy made by `Array.from(arr)`, so after the call the caller's array holds
the same elements in the same order as before. -/
theorem c10_pct_leaves_array_unchanged (arr : List JsNum) (p : Nat) :
    (pctCall arr p).2 = arr := by
  unfold pctCall
  split
  · rfl
  · rfl
